import Mathlib

/-!
Verification development for the Context7-MCP stub server
(`src/server.ts`).  The server registers two MCP tools
(`resolve-library-id` and `get-library-docs`) on an Express HTTP
endpoint `/mcp`.  Pure handler logic, the HTTP method routing, the
error envelopes, the startup sequence and the port selection are
embedded below as executable Lean definitions, translated directly
from the TypeScript source.
-/

/-- A content block of an MCP tool result: `{ type: "text", text: ... }`. -/
structure ContentBlock where
  type : String
  text : String
deriving DecidableEq, Repr

/-- An MCP tool result: `{ content: [...] }`, with the optional `isError`
field absent (`none`) in every result the stub produces. -/
structure ToolResult where
  content : List ContentBlock
  isError : Option Bool
deriving DecidableEq, Repr

/-- Parameters of the `resolve-library-id` tool
(`libraryName: z.string()`). -/
structure ResolveParams where
  libraryName : String
deriving DecidableEq, Repr

/-- Parameters of the `get-library-docs` tool after validation:
`context7CompatibleLibraryID: z.string()`, `topic: z.string().optional()`,
`tokens: z.number().optional()`. -/
structure GetDocsParams where
  context7CompatibleLibraryID : String
  topic : Option String
  tokens : Option Int
deriving DecidableEq, Repr

/-- JavaScript `a || d` on an (optional) string: `undefined` and the empty
string are falsy, so both fall back to the default `d`. -/
def jsOrDefault (a : Option String) (d : String) : String :=
  match a with
  | none => d
  | some s => if s.isEmpty then d else s

/-- Handler of `resolve-library-id`: returns the static placeholder ID
`/nextjs/nextjs/v14` regardless of `libraryName`. -/
def resolveLibraryId (_params : ResolveParams) : ToolResult :=
  { content := [{ type := "text", text := "/nextjs/nextjs/v14" }],
    isError := none }

/-- Trailing part of the documentation template, after the topic. -/
def mockDocTail : String :=
  "\n      // Example code for a Next.js App Router page:\n      import \x7b NextPage \x7d from \x27next\x27;\n      const HomePage: NextPage = () => \x7b\n        return <h1>Hello Context7!</h1>;\n      \x7d;\n      export default HomePage;\n    "

/-- The `mockDocumentation` template string of the `get-library-docs`
handler: embeds the library ID and `params.topic || 'General'`. -/
def mockDocumentation (id : String) (topic : Option String) : String :=
  "\n      // Context7 documentation for " ++
    (id ++ ("\n      // " ++ ("Topic: " ++
      ((jsOrDefault topic "General") ++ mockDocTail))))

/-- Handler of `get-library-docs`: returns a single text block holding the
templated documentation.  The `tokens` parameter is never read. -/
def getLibraryDocs (params : GetDocsParams) : ToolResult :=
  { content := [{ type := "text",
                  text := mockDocumentation
                            params.context7CompatibleLibraryID
                            params.topic }],
    isError := none }

/-- A raw JSON-ish argument value, before schema validation. -/
inductive JVal where
  | jstr (s : String)
  | jnum (n : Int)
  | jbool (b : Bool)
  | jnull
deriving DecidableEq, Repr

/-- Raw arguments of a `get-library-docs` call, prior to validation: each
field may be absent or hold a value of any type. -/
structure RawGetDocsArgs where
  context7CompatibleLibraryID : Option JVal
  topic : Option JVal
  tokens : Option JVal
deriving DecidableEq, Repr

/-- A structured validation error with field-level detail. -/
structure ValidationError where
  field : String
  reason : String
deriving DecidableEq, Repr

/-- Modelled from the spec: the schema-validation layer is supplied by the
protocol toolkit (zod inside the MCP SDK), whose code is not part of this
repository; only the schema declaration is in `src/server.ts`.  Per the
spec it "applies the schema; fails with ValidationError\x7bfield, reason\x7d
on missing required fields or type mismatch", before the handler runs. -/
def validateGetDocs (raw : RawGetDocsArgs) :
    Except ValidationError GetDocsParams :=
  match raw.context7CompatibleLibraryID with
  | none =>
    .error { field := "context7CompatibleLibraryID",
             reason := "missing required field" }
  | some (JVal.jstr id) =>
    match raw.topic with
    | none =>
      match raw.tokens with
      | none =>
        .ok { context7CompatibleLibraryID := id, topic := none,
              tokens := none }
      | some (JVal.jnum n) =>
        .ok { context7CompatibleLibraryID := id, topic := none,
              tokens := some n }
      | some _ => .error { field := "tokens", reason := "type mismatch" }
    | some (JVal.jstr t) =>
      match raw.tokens with
      | none =>
        .ok { context7CompatibleLibraryID := id, topic := some t,
              tokens := none }
      | some (JVal.jnum n) =>
        .ok { context7CompatibleLibraryID := id, topic := some t,
              tokens := some n }
      | some _ => .error { field := "tokens", reason := "type mismatch" }
    | some _ => .error { field := "topic", reason := "type mismatch" }
  | some _ =>
    .error { field := "context7CompatibleLibraryID",
             reason := "type mismatch" }

/-- A `get-library-docs` tool call: validation first, then the handler.
The handler only runs on arguments that passed validation. -/
def callGetLibraryDocs (raw : RawGetDocsArgs) :
    Except ValidationError ToolResult :=
  (validateGetDocs raw).map getLibraryDocs

/-- A JSON-RPC error object `{ code, message }`. -/
structure RpcError where
  code : Int
  message : String
deriving DecidableEq, Repr

/-- A JSON-RPC response envelope `{ jsonrpc, error, id }` as built by the
rejection branches of the server (`id: null` is `none`). -/
structure RpcEnvelope where
  jsonrpc : String
  error : Option RpcError
  id : Option Int
deriving DecidableEq, Repr

/-- An HTTP response: status code plus JSON-RPC envelope body. -/
structure HttpResponse where
  status : Nat
  body : RpcEnvelope
deriving DecidableEq, Repr

/-- The 405 response written by both the GET and the DELETE route of
`/mcp`. -/
def methodNotAllowedResponse : HttpResponse :=
  { status := 405,
    body := { jsonrpc := "2.0",
              error := some { code := -32000,
                              message := "Method not allowed." },
              id := none } }

/-- The `app.get("/mcp")` route: replies 405 without looking at the
request body (the body argument is ignored). -/
def getMcp (_body : String) : HttpResponse :=
  methodNotAllowedResponse

/-- The `app.delete("/mcp")` route: replies 405 without looking at the
request body (the body argument is ignored). -/
def deleteMcp (_body : String) : HttpResponse :=
  methodNotAllowedResponse

/-- The 500 response written by the catch branch of `app.post("/mcp")`. -/
def internalErrorResponse : HttpResponse :=
  { status := 500,
    body := { jsonrpc := "2.0",
              error := some { code := -32603,
                              message := "Internal server error" },
              id := none } }

/-- Outcome of `transport.handleRequest` (toolkit code outside this
repository): either it completed and sent a response, or it threw, with
`headersSent` recording whether a partial response had already gone
out. -/
inductive HandleOutcome where
  | ok (sent : HttpResponse)
  | fault (headersSent : Bool)
deriving DecidableEq, Repr

/-- The `app.post("/mcp")` route: the responses the route writes, as a
function of the transport outcome.  On success the transport's response
stands; on a fault the catch branch writes the 500 internal-error
envelope, unless headers were already sent, in which case nothing more is
written.  The function is total: no outcome escapes the catch. -/
def postMcp : HandleOutcome → List HttpResponse
  | HandleOutcome.ok r => [r]
  | HandleOutcome.fault true => []
  | HandleOutcome.fault false => [internalErrorResponse]

/-- Result of the startup sequence `setupServer().then(listen).catch`. -/
inductive StartupResult where
  | listening
  | exited (code : Nat)
deriving DecidableEq, Repr

/-- The startup sequence: `app.listen` runs only in the `.then` branch,
after `server.connect(transport)` resolved; a connect failure runs the
`.catch` branch, which logs and calls `process.exit(1)`. -/
def startup (connect : Except String Unit) : StartupResult :=
  match connect with
  | .ok _ => StartupResult.listening
  | .error _ => StartupResult.exited 1

/-- The port value used by `app.listen`: either the raw environment
string or the numeric default. -/
inductive PortSetting where
  | fromEnv (s : String)
  | defaultPort (n : Nat)
deriving DecidableEq, Repr

/-- `const PORT = process.env.PORT || 3000`: JavaScript `||` treats an
unset variable and the empty string as falsy, yielding the default
3000. -/
def PORT (envPORT : Option String) : PortSetting :=
  match envPORT with
  | none => PortSetting.defaultPort 3000
  | some s => if s.isEmpty then PortSetting.defaultPort 3000
      else PortSetting.fromEnv s

/-- `containsStr s sub` holds when `sub` occurs contiguously inside
`s`. -/
def containsStr (s sub : String) : Prop :=
  ∃ pre post : String, s = pre ++ (sub ++ post)

theorem containsStr_head (sub t : String) : containsStr (sub ++ t) sub :=
  ⟨"", t, by rw [String.empty_append]⟩

theorem containsStr_cons (s : String) {t sub : String}
    (h : containsStr t sub) : containsStr (s ++ t) sub := by
  obtain ⟨p, q, hp⟩ := h
  exact ⟨s ++ p, q, by rw [hp, String.append_assoc]⟩

theorem append_ne_empty_of_left (a b : String) (h : a ≠ "") :
    a ++ b ≠ "" := by
  intro hab
  apply h
  have hd := congrArg String.data hab
  rw [String.data_append] at hd
  have h0 : a.data ++ b.data = ([] : List Char) := by simpa using hd
  rcases List.append_eq_nil.mp h0 with ⟨ha, _⟩
  exact String.ext (by simp [ha])

/-- Claim C1: every valid `resolve-library-id` call with a non-empty
`libraryName` yields exactly one text content block, no error field, and
the block text is the fixed placeholder `/nextjs/nextjs/v14`,
independently of the input. -/
theorem resolveLibraryId_c1 (p : ResolveParams) (_h : p.libraryName ≠ "") :
    (resolveLibraryId p).content =
      [{ type := "text", text := "/nextjs/nextjs/v14" }] ∧
    (resolveLibraryId p).isError = none ∧
    ∀ q : ResolveParams, resolveLibraryId q = resolveLibraryId p :=
  ⟨rfl, rfl, fun _ => rfl⟩

/-- Witness for C1 at `libraryName = "Next.js"`. -/
theorem resolveLibraryId_c1_witness :
    (resolveLibraryId { libraryName := "Next.js" }).content =
      [{ type := "text", text := "/nextjs/nextjs/v14" }] ∧
    (resolveLibraryId { libraryName := "Next.js" }).isError = none :=
  ⟨(resolveLibraryId_c1 { libraryName := "Next.js" } (by decide)).1,
   (resolveLibraryId_c1 { libraryName := "Next.js" } (by decide)).2.1⟩

/-- Claim C2: every valid `get-library-docs` call with only the required
ID yields a single text block whose text is non-empty and contains the
identifier string. -/
theorem getLibraryDocs_c2 (id : String) :
    ∃ b : ContentBlock,
      (getLibraryDocs { context7CompatibleLibraryID := id, topic := none,
                        tokens := none }).content = [b] ∧
      b.type = "text" ∧ b.text ≠ "" ∧ containsStr b.text id := by
  refine ⟨{ type := "text", text := mockDocumentation id none }, rfl, rfl,
    ?_, ?_⟩
  · show mockDocumentation id none ≠ ""
    unfold mockDocumentation
    exact append_ne_empty_of_left _ _ (by decide)
  · show containsStr (mockDocumentation id none) id
    unfold mockDocumentation
    exact containsStr_cons _ (containsStr_head _ _)

/-- Claim C3: `get-library-docs` at ID `/nextjs/nextjs/v14` and topic
`routing` yields a text block containing both the identifier and the word
`routing`. -/
theorem getLibraryDocs_c3 :
    ∃ b : ContentBlock,
      (getLibraryDocs
        { context7CompatibleLibraryID := "/nextjs/nextjs/v14",
          topic := some "routing", tokens := none }).content = [b] ∧
      containsStr b.text "/nextjs/nextjs/v14" ∧
      containsStr b.text "routing" := by
  refine ⟨_, rfl, ?_, ?_⟩
  · show containsStr
      (mockDocumentation "/nextjs/nextjs/v14" (some "routing"))
      "/nextjs/nextjs/v14"
    unfold mockDocumentation
    exact containsStr_cons _ (containsStr_head _ _)
  · show containsStr
      (mockDocumentation "/nextjs/nextjs/v14" (some "routing")) "routing"
    unfold mockDocumentation
    rw [show jsOrDefault (some "routing") "General" = "routing" by decide]
    exact containsStr_cons _ (containsStr_cons _ (containsStr_cons _
      (containsStr_cons _ (containsStr_head _ _))))

/-- Claim C4: omitting the required `context7CompatibleLibraryID` yields a
structured validation error and never a successful response; validation
runs before the handler. -/
theorem getLibraryDocs_c4 (raw : RawGetDocsArgs)
    (h : raw.context7CompatibleLibraryID = none) :
    callGetLibraryDocs raw =
      Except.error { field := "context7CompatibleLibraryID",
                     reason := "missing required field" } ∧
    ∀ r : ToolResult, callGetLibraryDocs raw ≠ Except.ok r := by
  have h1 : callGetLibraryDocs raw =
      Except.error { field := "context7CompatibleLibraryID",
                     reason := "missing required field" } := by
    simp [callGetLibraryDocs, validateGetDocs, h, Except.map]
  exact ⟨h1, fun r hr => by rw [h1] at hr; exact Except.noConfusion hr⟩

/-- Witness for C4 at the empty raw-argument record. -/
theorem getLibraryDocs_c4_witness :
    callGetLibraryDocs { context7CompatibleLibraryID := none, topic := none,
                         tokens := none } =
      Except.error { field := "context7CompatibleLibraryID",
                     reason := "missing required field" } :=
  (getLibraryDocs_c4 { context7CompatibleLibraryID := none, topic := none,
                       tokens := none } rfl).1

/-- Claim C5: every GET or DELETE request to `/mcp` yields status 405 with
error code -32000, message `Method not allowed.`, and `id: null`,
regardless of the request body. -/
theorem mcp_c5 (body : String) :
    getMcp body = methodNotAllowedResponse ∧
    deleteMcp body = methodNotAllowedResponse ∧
    methodNotAllowedResponse.status = 405 ∧
    methodNotAllowedResponse.body.error =
      some { code := -32000, message := "Method not allowed." } ∧
    methodNotAllowedResponse.body.id = none ∧
    ∀ b : String, getMcp b = getMcp body ∧ deleteMcp b = deleteMcp body :=
  ⟨rfl, rfl, rfl, rfl, rfl, fun _ => ⟨rfl, rfl⟩⟩

/-- Claim C6: a fault in POST handling yields the 500 internal-error
envelope with code -32603, but only when no partial response was sent;
if headers were sent, nothing more is written.  `postMcp` is a total
function, so no fault escapes the catch to crash the process. -/
theorem mcp_c6 (hs : Bool) :
    postMcp (HandleOutcome.fault hs) =
      (if hs then [] else [internalErrorResponse]) ∧
    internalErrorResponse.status = 500 ∧
    internalErrorResponse.body.error =
      some { code := -32603, message := "Internal server error" } := by
  refine ⟨?_, rfl, rfl⟩
  cases hs <;> rfl

/-- Claim C7: listening starts exactly when the registry-to-transport
connection succeeded; a connect failure exits with status 1, which is
non-zero, and listening never starts. -/
theorem startup_c7 (c : Except String Unit) :
    (startup c = StartupResult.listening ↔ c = Except.ok ()) ∧
    ∀ e : String, c = Except.error e →
      startup c = StartupResult.exited 1 ∧ (1 : Nat) ≠ 0 := by
  constructor
  · cases c with
    | ok u => cases u; simp [startup]
    | error e => simp [startup]
  · intro e he
    subst he
    exact ⟨rfl, by decide⟩

/-- Witness for C7 at a failing connect step. -/
theorem startup_c7_witness :
    startup (Except.error "fail") = StartupResult.exited 1 ∧
    (1 : Nat) ≠ 0 :=
  (startup_c7 (Except.error "fail")).2 "fail" rfl

/-- Claim C8: the listening port comes from the single `PORT` environment
setting and defaults to 3000 when it is unset. -/
theorem port_c8 :
    PORT none = PortSetting.defaultPort 3000 ∧
    ∀ s : String, PORT (some s) =
      (if s.isEmpty then PortSetting.defaultPort 3000
       else PortSetting.fromEnv s) :=
  ⟨rfl, fun _ => rfl⟩

/-- Claim C9: the optional `tokens` parameter has no effect: two valid
calls differing only in `tokens` return identical content. -/
theorem getLibraryDocs_c9 (p q : GetDocsParams)
    (hid : p.context7CompatibleLibraryID = q.context7CompatibleLibraryID)
    (ht : p.topic = q.topic) :
    getLibraryDocs p = getLibraryDocs q := by
  simp [getLibraryDocs, hid, ht]

/-- Witness for C9: `tokens` absent versus `tokens := 5`. -/
theorem getLibraryDocs_c9_witness :
    getLibraryDocs { context7CompatibleLibraryID := "/nextjs/nextjs/v14",
                     topic := none, tokens := none } =
    getLibraryDocs { context7CompatibleLibraryID := "/nextjs/nextjs/v14",
                     topic := none, tokens := some 5 } :=
  getLibraryDocs_c9
    { context7CompatibleLibraryID := "/nextjs/nextjs/v14", topic := none,
      tokens := none }
    { context7CompatibleLibraryID := "/nextjs/nextjs/v14", topic := none,
      tokens := some 5 } rfl rfl

/-- Claim C10: with topic absent or empty the response text contains
`Topic: General`, and the empty-string topic is treated exactly like an
absent topic (JavaScript falsy coalescing). -/
theorem getLibraryDocs_c10 (id : String) (t : Option Int) :
    (∃ b : ContentBlock,
      (getLibraryDocs { context7CompatibleLibraryID := id, topic := none,
                        tokens := t }).content = [b] ∧
      containsStr b.text "Topic: General") ∧
    getLibraryDocs { context7CompatibleLibraryID := id, topic := some "",
                     tokens := t } =
    getLibraryDocs { context7CompatibleLibraryID := id, topic := none,
                     tokens := t } := by
  constructor
  · refine ⟨_, rfl, ?_⟩
    show containsStr (mockDocumentation id none) "Topic: General"
    unfold mockDocumentation
    rw [show jsOrDefault none "General" = "General" from rfl]
    rw [show ("Topic: " : String) ++ ("General" ++ mockDocTail) =
      "Topic: General" ++ mockDocTail by
        rw [← String.append_assoc]; rfl]
    exact containsStr_cons _ (containsStr_cons _ (containsStr_cons _
      (containsStr_head _ _)))
  · have he : jsOrDefault (some "") "General" =
        jsOrDefault none "General" := by decide
    simp [getLibraryDocs, mockDocumentation, he]
